import Mathlib

/-
Verification development for PortableXE (src/PortableXE.py).
The definitions below are a shallow embedding of the installer-detection,
PE-header-parsing, extraction-strategy and validation code of the repository:
files are modelled as lists of byte values (Nat), directories as finite trees
of named entries, external tools as environment events describing what the
tool wrote and how its process ended, and Python exceptions as explicit
alternative return paths (exceptions caught by the source's handlers become
the value the handler returns).
-/

namespace PortableXE

/-- Contiguous-sublist test, the embedding of Python's `pat in s` for
`bytes`/`str` operands. -/
def hasSubList {α : Type} [BEq α] (pat : List α) : List α → Bool
  | [] => pat.isEmpty
  | a :: t => pat.isPrefixOf (a :: t) || hasSubList pat t

/-- Byte values of an ASCII string literal, used for the installer
signature byte strings such as b'Inno Setup'. -/
def strBytes (s : String) : List Nat :=
  s.toList.map Char.toNat

/-- Embedding of Python's `str.lower()`, characterwise (the names involved
are ASCII). -/
def toLowerStr (s : String) : String :=
  String.mk (s.toList.map Char.toLower)

/-- Embedding of Python's `s.endswith(suffix)`. -/
def endsWithStr (s suffix : String) : Bool :=
  suffix.toList.isSuffixOf s.toList

/-- Embedding of Python's `s.startswith(pre)`. -/
def startsWithStr (s pre : String) : Bool :=
  pre.toList.isPrefixOf s.toList

/-! FileAnalyzer.detect_installer_type (src/PortableXE.py lines 220-272). -/

/-- The `installer_patterns` list checked against the lowercased basename. -/
def installer_patterns : List String := ["setup", "install", "installer"]

/-- Whether any installer filename pattern occurs in the (already
lowercased) basename, the embedding of the pattern loop at lines 231-233. -/
def hasInstallerPattern (filename : String) : Bool :=
  installer_patterns.any (fun p => hasSubList p.toList filename.toList)

/-- The framework signature table of lines 239-261, in source order:
each family name paired with the byte strings whose presence in the first
8192 bytes selects it. First match wins, exactly as the source's chain of
early returns. -/
def installerSignatures : List (String × List String) :=
  [("Inno Setup", ["Inno Setup", "InnoSetup"]),
   ("NSIS", ["NSIS", "Nullsoft", "!insertmacro"]),
   ("InstallShield", ["InstallShield"]),
   ("WiX", ["WiX", "Windows Installer"]),
   ("Windows Installer", ["This installation package"]),
   ("Advanced Installer", ["Advanced Installer"])]

/-- First framework (in source order) with a signature occurring in `data`,
the embedding of the if-chain at lines 239-261 applied to `f.read(8192)`. -/
def sigFamily (data : List Nat) : Option String :=
  (installerSignatures.find? (fun fs => fs.2.any (fun s => hasSubList (strBytes s) data))).map
    Prod.fst

/-- A file as the two observations detect_installer_type makes of the disk:
the byte content served to `read`, and the size reported by
`os.path.getsize`. -/
structure DiskFile where
  bytes : List Nat
  size : Nat
deriving Repr, DecidableEq

/-- Embedding of FileAnalyzer.detect_installer_type. `name` is the basename
of the path (`os.path.basename`); `f` is `none` when opening/reading the
file raises, in which case the source's except-handler returns
(False, "Unknown"). The filename-pattern check precedes the `open`, so it
fires even for an unreadable path. -/
def detect_installer_type (name : String) (f : Option DiskFile) : Bool × String :=
  if hasInstallerPattern (toLowerStr name) then (true, "Generic Installer")
  else
    match f with
    | none => (false, "Unknown")
    | some file =>
      match sigFamily (file.bytes.take 8192) with
      | some fam => (true, fam)
      | none =>
        if 50 * 1024 * 1024 < file.size then (true, "Large Executable (Likely Installer)")
        else (false, "Standalone Application")

/-! FileAnalyzer.analyze_pe_structure (src/PortableXE.py lines 152-218). -/

/-- The analysis dict of lines 155-164, with its initial values as the
field defaults. `is_installer`, `installer_type`, `imports` and `resources`
are never written by analyze_pe_structure and stay at their defaults. -/
structure PEAnalysis where
  is_valid_pe : Bool := false
  is_installer : Bool := false
  installer_type : String := "unknown"
  architecture : String := "unknown"
  subsystem : String := "unknown"
  sections : List String := []
  imports : List String := []
  resources : List String := []
deriving Repr, DecidableEq

/-- The freshly initialized analysis record. -/
def defaultAnalysis : PEAnalysis := {}

/-- A binary file handle: content plus current position. `read` past the
end returns the available bytes (possibly none), as in Python. -/
structure ByteReader where
  data : List Nat
  pos : Nat
deriving Repr, DecidableEq

/-- Embedding of `f.read(n)`: up to `n` bytes from the current position,
advancing the position by the number of bytes actually produced. -/
def rd (r : ByteReader) (n : Nat) : List Nat × ByteReader :=
  let bs := (r.data.drop r.pos).take n
  (bs, { r with pos := r.pos + bs.length })

/-- Embedding of `f.seek(n)` (absolute). -/
def seekTo (r : ByteReader) (n : Nat) : ByteReader :=
  { r with pos := n }

/-- struct.unpack of a little-endian 16-bit value: requires exactly two
bytes, otherwise struct.error (modelled as `none`). -/
def unpack16 (bs : List Nat) : Option Nat :=
  match bs with
  | [a, b] => some (a + 256 * b)
  | _ => none

/-- struct.unpack of a little-endian 32-bit value: requires exactly four
bytes, otherwise struct.error (modelled as `none`). -/
def unpack32 (bs : List Nat) : Option Nat :=
  match bs with
  | [a, b, c, d] => some (a + 256 * (b + 256 * (c + 256 * d)))
  | _ => none

/-- Embedding of `bs.rstrip(b'\x00')`: drop trailing zero bytes. -/
def rstripZeros (bs : List Nat) : List Nat :=
  (bs.reverse.dropWhile (fun b => b = 0)).reverse

/-- Embedding of `bs.decode('ascii', errors='ignore')`: keep the bytes
below 128 as characters, silently dropping the rest. -/
def decodeAsciiIgnore (bs : List Nat) : String :=
  String.mk ((bs.filter (fun b => b < 128)).map Char.ofNat)

/-- The section-header loop of lines 209-213: read `n` records of 40 bytes;
a record appended only when all 40 bytes were obtained, its name the first
8 bytes with trailing zeros stripped, decoded as ASCII ignoring errors. -/
def readSectionNames (r : ByteReader) : Nat → List String
  | 0 => []
  | Nat.succ n =>
    let p := rd r 40
    if p.1.length = 40 then
      decodeAsciiIgnore (rstripZeros (p.1.take 8)) :: readSectionNames p.2 n
    else
      readSectionNames p.2 n

/-- Lines 198-213 of the source, after the COFF header has been decoded:
`a` holds the fields gathered so far, `r` the handle positioned after the
COFF header. If the declared optional-header size is nonzero, read that
many bytes; with at least 68 bytes obtained the source unpacks bytes
68:70 — a struct.error there (exactly 68 or 69 bytes obtained) is caught by
the outer handler, which returns the fields gathered so far. Otherwise the
section-header loop runs. -/
def afterCoff (a : PEAnalysis) (r : ByteReader) (opt_header_size num_sections : Nat) :
    PEAnalysis :=
  if 0 < opt_header_size then
    let p := rd r opt_header_size
    if 68 ≤ p.1.length then
      match unpack16 ((p.1.drop 68).take 2) with
      | none => a
      | some subsystem =>
        let a2 := { a with subsystem :=
          if subsystem = 2 then "GUI"
          else if subsystem = 3 then "Console"
          else a.subsystem }
        { a2 with sections := readSectionNames p.2 num_sections }
    else
      { a with sections := readSectionNames p.2 num_sections }
  else
    { a with sections := readSectionNames r num_sections }

/-- Embedding of the body of analyze_pe_structure on the opened file
content. Every `none` branch of an unpack is a struct.error caught by the
outer except, which returns the analysis as populated at that point. -/
def analyzeBytes (data : List Nat) : PEAnalysis :=
  let r0 : ByteReader := ⟨data, 0⟩
  let p1 := rd r0 64
  if p1.1.take 2 ≠ [77, 90] then defaultAnalysis
  else
    match unpack32 ((p1.1.drop 60).take 4) with
    | none => defaultAnalysis
    | some pe_offset =>
      let p3 := rd (seekTo p1.2 pe_offset) 4
      if p3.1 ≠ [80, 69, 0, 0] then defaultAnalysis
      else
        let a1 : PEAnalysis := { defaultAnalysis with is_valid_pe := true }
        let p4 := rd p3.2 20
        match unpack16 (p4.1.take 2) with
        | none => a1
        | some machine =>
          match unpack16 ((p4.1.drop 2).take 2) with
          | none => a1
          | some num_sections =>
            let a2 : PEAnalysis := { a1 with architecture :=
              if machine = 0x8664 then "x64"
              else if machine = 0x14c then "x86"
              else if machine = 0x1c4 then "ARM"
              else a1.architecture }
            match unpack16 ((p4.1.drop 16).take 2) with
            | none => a2
            | some opt_header_size => afterCoff a2 p4.2 opt_header_size num_sections

/-- Embedding of FileAnalyzer.analyze_pe_structure. `none` models a path
whose `open` raises; the outer except-handler then returns the untouched
initial record. The Lean function is total: the source never propagates an
exception to its caller. -/
def analyze_pe_structure (f : Option (List Nat)) : PEAnalysis :=
  match f with
  | none => defaultAnalysis
  | some data => analyzeBytes data

/-! ExtractionEngine (src/PortableXE.py lines 274-462). A directory is a
finite tree of named entries; `os.listdir` yields the names of the
immediate entries and `os.walk` visits every file in the tree. -/

/-- A filesystem entry: a plain file, or a subdirectory with its own
entries. -/
inductive Entry where
  | file : String → Entry
  | dir : String → List Entry → Entry
deriving Repr

/-- Name of an entry, as os.listdir reports it. -/
def entryName : Entry → String
  | .file n => n
  | .dir n _ => n

/-- Embedding of `os.listdir(d)`: the names of the immediate entries. -/
def listNames (d : List Entry) : List String :=
  d.map entryName

mutual

/-- Number of files in the tree below one entry whose name satisfies `p`
(a directory's own name is never counted: os.walk counts files only). -/
def entryCount (p : String → Bool) : Entry → Nat
  | .file n => if p n then 1 else 0
  | .dir _ cs => listCount p cs

/-- Number of files anywhere under the given entries whose name satisfies
`p`, the embedding of the os.walk counting loops of lines 437-442. -/
def listCount (p : String → Bool) : List Entry → Nat
  | [] => 0
  | e :: es => entryCount p e + listCount p es

end

/-- The extension test of line 439: `file.lower().endswith(('.exe', '.dll',
'.sys'))`. -/
def isExeName (n : String) : Bool :=
  endsWithStr (toLowerStr n) ".exe" || endsWithStr (toLowerStr n) ".dll" ||
    endsWithStr (toLowerStr n) ".sys"

/-- The extension test of line 441: `file.lower().endswith(('.exe', '.dll',
'.txt', '.ini', '.cfg', '.dat'))`. -/
def isMeaningfulName (n : String) : Bool :=
  endsWithStr (toLowerStr n) ".exe" || endsWithStr (toLowerStr n) ".dll" ||
    endsWithStr (toLowerStr n) ".txt" || endsWithStr (toLowerStr n) ".ini" ||
    endsWithStr (toLowerStr n) ".cfg" || endsWithStr (toLowerStr n) ".dat"

/-- The `pe_sections` list of line 425. -/
def pe_sections : List String :=
  [".text", ".data", ".rdata", ".bss", ".idata", ".edata", ".rsrc"]

/-- The `pe_section_count` sum of line 426: how many immediate entry names
start with one of the linker-section prefixes. -/
def pe_section_count (files : List String) : Nat :=
  (files.filter (fun f => pe_sections.any (fun sec => startsWithStr f sec))).length

/-- Embedding of ExtractionEngine._validate_extraction. `none` models a
nonexistent directory (the `os.path.exists` guard). -/
def validate_extraction : Option (List Entry) → Bool
  | none => false
  | some d =>
    if (listNames d).length = 0 then false
    else if 3 < pe_section_count (listNames d) then false
    else decide (0 < listCount isExeName d) || decide (5 < listCount isMeaningfulName d)

/-! The strategy functions. Each external tool is modelled by an
environment event: the entries the tool wrote into the target directory
before its invocation finished, and how the invocation ended. -/

/-- How a `subprocess.run` invocation ended: with an exit code, by
subprocess.TimeoutExpired, or by another exception (e.g. FileNotFoundError
when the command is absent). -/
inductive RunOutcome where
  | exited : Nat → RunOutcome
  | timedOut : RunOutcome
  | raised : RunOutcome
deriving Repr

/-- One external-tool invocation as the orchestrator observes it. -/
structure ToolEvent where
  outcome : RunOutcome
  written : List Entry
deriving Repr

/-- Shared core of the three tool-backed strategies (lines 346-396): the
tool's writes land in the target directory whatever happens; the strategy
reports success exactly when the process exited with code zero and
os.listdir of the target is nonempty; a timeout or exception is caught and
reported as failure, the writes remaining in place. -/
def toolStrategyRun (ev : ToolEvent) (d : List Entry) : Bool × List Entry :=
  let d2 := d ++ ev.written
  match ev.outcome with
  | .exited c => (decide (c = 0) && decide (0 < (listNames d2).length), d2)
  | _ => (false, d2)

/-- Embedding of ExtractionEngine._extract_with_7zip: when find_7zip
returns None the strategy returns False without running anything. -/
def extract_with_7zip (found : Bool) (ev : ToolEvent) (d : List Entry) : Bool × List Entry :=
  if found then toolStrategyRun ev d else (false, d)

/-- Embedding of ExtractionEngine._extract_with_innoextract, same shape as
the 7-Zip strategy. -/
def extract_with_innoextract (found : Bool) (ev : ToolEvent) (d : List Entry) :
    Bool × List Entry :=
  if found then toolStrategyRun ev d else (false, d)

/-- Embedding of ExtractionEngine._extract_msi: msiexec is invoked without
a lookup; a missing command surfaces as a raised event. -/
def extract_msi (ev : ToolEvent) (d : List Entry) : Bool × List Entry :=
  toolStrategyRun ev d

/-- What the zipfile attempt of _extract_universal did: the entries it
extracted before finishing or raising, and whether it raised. -/
structure ZipEvent where
  written : List Entry
  raised : Bool
deriving Repr

/-- Embedding of ExtractionEngine._extract_universal: success when the zip
extraction did not raise and the target directory is nonempty. -/
def extract_universal (ev : ZipEvent) (d : List Entry) : Bool × List Entry :=
  let d2 := d ++ ev.written
  if ev.raised then (false, d2)
  else (decide (0 < (listNames d2).length), d2)

/-! ExtractionEngine.extract_installer (lines 281-344). -/

/-- The three Extraction-section configuration flags read by
extract_installer (each compared against the string 'true' in the
source). -/
structure ExtractionConfig where
  use_7zip : Bool
  use_innoextract : Bool
  use_msi_extract : Bool
deriving Repr

/-- The environment of one orchestration run: tool availability and the
event each strategy's invocation would produce. -/
structure ExtractionEnv where
  sevenZipFound : Bool
  sevenZipEv : ToolEvent
  innoFound : Bool
  innoEv : ToolEvent
  msiEv : ToolEvent
  zipEv : ZipEvent
deriving Repr

/-- The strategies extract_installer actually attempts, in source order:
7-Zip and innoextract when their flags are set, msiexec when the input
ends in '.msi' and its flag is set, and the universal zip attempt always. -/
def stages (cfg : ExtractionConfig) (isMsi : Bool) (env : ExtractionEnv) :
    List (List Entry → Bool × List Entry) :=
  (if cfg.use_7zip then [extract_with_7zip env.sevenZipFound env.sevenZipEv] else []) ++
    (if cfg.use_innoextract then [extract_with_innoextract env.innoFound env.innoEv] else []) ++
    (if isMsi && cfg.use_msi_extract then [extract_msi env.msiEv] else []) ++
    [extract_universal env.zipEv]

/-- The orchestration loop of extract_installer over the attempted
strategies, also returning the trace of target-directory contents at the
moment each attempted strategy begins. A strategy that reports success has
its output validated: acceptance ends the run with that directory;
rejection triggers _cleanup_failed_extraction, which removes the directory
tree and recreates it empty (modelled as the cleanup succeeding), before
the next strategy runs. A strategy that reports failure leaves the
directory exactly as its invocation left it. -/
def runChain : List (List Entry → Bool × List Entry) → List Entry →
    Option (List Entry) × List (List Entry)
  | [], _ => (none, [])
  | s :: rest, d =>
    let p := s d
    if p.1 then
      if validate_extraction (some p.2) then (some p.2, [d])
      else
        let q := runChain rest []
        (q.1, d :: q.2)
    else
      let q := runChain rest p.2
      (q.1, d :: q.2)

/-- Embedding of ExtractionEngine.extract_installer: the target directory
is created empty, then the enabled strategies run in order; the result is
the validated directory (or `none` when every strategy failed) together
with the per-strategy start-state trace. -/
def extract_installer (cfg : ExtractionConfig) (isMsi : Bool) (env : ExtractionEnv) :
    Option (List Entry) × List (List Entry) :=
  runChain (stages cfg isMsi env) []

/-! Concrete inputs used by the counterexamples and witnesses below. -/

/-- A 64-byte legacy (DOS) header: the 'MZ' magic, padding, and the
little-endian offset 64 of the modern header at byte 60. -/
def dosHeader : List Nat := [77, 90] ++ List.replicate 58 0 ++ [64, 0, 0, 0]

/-- A file that ends immediately after a valid 'PE\x00\x00' signature: the
COFF-header read comes back empty and struct.unpack raises. -/
def truncatedAfterSig : List Nat := dosHeader ++ [80, 69, 0, 0]

/-- A PE file declaring machine 0x8664, one section, and an optional-header
size of exactly 68 bytes, followed by those 68 bytes and a well-formed
40-byte '.text' section header (which starts at offset 156). -/
def optSize68File : List Nat :=
  dosHeader ++ [80, 69, 0, 0] ++
    ([0x64, 0x86] ++ [1, 0] ++ List.replicate 12 0 ++ [68, 0] ++ [0, 0]) ++
    List.replicate 68 0 ++
    (strBytes ".text" ++ [0, 0, 0] ++ List.replicate 32 0)

/-- Four immediate entries named after linker sections, the signature of a
dissected PE container. -/
def dissectedDir : List Entry :=
  [Entry.file ".text", Entry.file ".data", Entry.file ".rdata", Entry.file ".rsrc"]

/-- A dissected PE container that nevertheless contains an executable. -/
def dissectedWithExe : List Entry := dissectedDir ++ [Entry.file "app.exe"]

/-- All Extraction flags enabled, the default configuration. -/
def allCfg : ExtractionConfig := ⟨true, true, true⟩

/-- An environment in which 7-Zip exits with code 1 after writing one
partial file, and every later strategy fails without writing anything. -/
def cexFailEnv : ExtractionEnv :=
  { sevenZipFound := true
    sevenZipEv := ⟨RunOutcome.exited 1, [Entry.file "partial.bin"]⟩
    innoFound := true
    innoEv := ⟨RunOutcome.exited 1, []⟩
    msiEv := ⟨RunOutcome.exited 1, []⟩
    zipEv := ⟨[], true⟩ }

/-! Helper lemmas. -/

mutual

theorem entryCount_le_total (p : String → Bool) (e : Entry) :
    entryCount p e ≤ entryCount (fun _ => true) e := by
  cases e with
  | file n => cases hp : p n <;> simp [entryCount, hp]
  | dir n cs => simpa [entryCount] using listCount_le_total p cs

theorem listCount_le_total (p : String → Bool) (l : List Entry) :
    listCount p l ≤ listCount (fun _ => true) l := by
  cases l with
  | nil => simp [listCount]
  | cons e es =>
    simp only [listCount]
    exact Nat.add_le_add (entryCount_le_total p e) (listCount_le_total p es)

end

theorem listCount_pos_ne_nil (p : String → Bool) (d : List Entry)
    (h : 0 < listCount p d) : d ≠ [] := by
  intro hd
  subst hd
  simp [listCount] at h

/-- C2: a candidate directory whose immediate entries include more than 3
names starting with a linker-section prefix is rejected, as is a
nonexistent directory and a directory with no immediate entries. -/
theorem C2_validator_rejects_dissection_and_empty :
    (∀ d : List Entry, 3 < pe_section_count (listNames d) →
      validate_extraction (some d) = false) ∧
    validate_extraction none = false ∧
    validate_extraction (some []) = false := by
  refine ⟨?_, rfl, rfl⟩
  intro d h
  by_cases h0 : (listNames d).length = 0
  · simp [validate_extraction, h0]
  · simp [validate_extraction, h0, h]

theorem C2_witness : validate_extraction (some dissectedDir) = false :=
  C2_validator_rejects_dissection_and_empty.1 dissectedDir (by decide)

/-- C3 counterexample: a directory that contains an executable file but
whose immediate entries include four linker-section names is rejected by
the validator, so "at least one .exe/.dll/.sys file anywhere implies
validate returns true" is false of the code. -/
theorem C3_counterexample :
    0 < listCount isExeName dissectedWithExe ∧
    validate_extraction (some dissectedWithExe) = false := by decide

/-- C3 (amended): a tree containing zero files is rejected; a tree
containing at least one .exe/.dll/.sys file anywhere is accepted provided
at most 3 of the immediate entry names start with a linker-section
prefix. -/
theorem C3_zero_files_reject_exe_accept :
    (∀ d : List Entry, listCount (fun _ => true) d = 0 →
      validate_extraction (some d) = false) ∧
    (∀ d : List Entry, 0 < listCount isExeName d →
      pe_section_count (listNames d) ≤ 3 →
      validate_extraction (some d) = true) := by
  constructor
  · intro d h
    have hexe : listCount isExeName d = 0 :=
      Nat.le_zero.mp (h ▸ listCount_le_total isExeName d)
    have hm : listCount isMeaningfulName d = 0 :=
      Nat.le_zero.mp (h ▸ listCount_le_total isMeaningfulName d)
    simp [validate_extraction, hexe, hm]
  · intro d hexe hsec
    have hne : ¬((listNames d).length = 0) := by
      intro hlen
      have hd : d = [] := by
        cases d with
        | nil => rfl
        | cons e es => simp [listNames] at hlen
      exact listCount_pos_ne_nil isExeName d hexe hd
    simp [validate_extraction, hne, Nat.not_lt.mpr hsec, hexe]

theorem C3_witness : validate_extraction (some [Entry.file "app.exe"]) = true :=
  C3_zero_files_reject_exe_accept.2 [Entry.file "app.exe"] (by decide) (by decide)

/-- C8: for each external-tool-backed strategy, when the subprocess exits
with a code, success is reported exactly when the code is zero and the
target directory is nonempty afterward; a timeout or an exception also
makes the strategy report failure. -/
theorem C8_tool_success_contract (w : List Entry) (c : Nat) (d : List Entry) :
    ((extract_with_7zip true ⟨RunOutcome.exited c, w⟩ d).1 = true ↔
      (c = 0 ∧ d ++ w ≠ [])) ∧
    ((extract_with_innoextract true ⟨RunOutcome.exited c, w⟩ d).1 = true ↔
      (c = 0 ∧ d ++ w ≠ [])) ∧
    ((extract_msi ⟨RunOutcome.exited c, w⟩ d).1 = true ↔
      (c = 0 ∧ d ++ w ≠ [])) ∧
    (extract_with_7zip true ⟨RunOutcome.timedOut, w⟩ d).1 = false ∧
    (extract_with_innoextract true ⟨RunOutcome.raised, w⟩ d).1 = false ∧
    (extract_msi ⟨RunOutcome.timedOut, w⟩ d).1 = false := by
  refine ⟨?_, ?_, ?_, rfl, rfl, rfl⟩ <;>
    simp [extract_with_7zip, extract_with_innoextract, extract_msi, toolStrategyRun,
      listNames, List.length_pos, and_comm] <;>
    tauto

/-- C10 counterexample: a path that cannot be opened but whose basename
contains 'setup' is classified before any file access, so the I/O-error
result (false, "Unknown") is not returned for every unreadable path. -/
theorem C10_counterexample :
    detect_installer_type "setup.exe" none = (true, "Generic Installer") ∧
    ((true, "Generic Installer") : Bool × String) ≠ (false, "Unknown") := by decide

/-- C10 (amended): for an unreadable input whose lowercased basename
contains none of the installer filename patterns, detection returns
(false, "Unknown"), a family string distinct from "Standalone Application"
and from every installer-family name. -/
theorem C10_unreadable_returns_unknown (name : String)
    (h : hasInstallerPattern (toLowerStr name) = false) :
    detect_installer_type name none = (false, "Unknown") ∧
    ("Unknown" : String) ≠ "Standalone Application" ∧
    (installerSignatures.map Prod.fst).contains "Unknown" = false ∧
    ("Unknown" : String) ≠ "Generic Installer" ∧
    ("Unknown" : String) ≠ "Large Executable (Likely Installer)" := by
  refine ⟨?_, by decide, by decide, by decide, by decide⟩
  simp [detect_installer_type, h]

theorem C10_witness : detect_installer_type "app.bin" none = (false, "Unknown") :=
  (C10_unreadable_returns_unknown "app.bin" (by decide)).1

/-- C1 counterexample: when 7-Zip exits with code 1 after writing a partial
file, no cleanup runs, and the next strategy (innoextract) begins its
attempt with that non-empty target directory — the trace's second
start-state is the leftover file. -/
theorem C1_counterexample :
    (extract_installer allCfg false cexFailEnv).2.get? 1 = some [Entry.file "partial.bin"] ∧
    ([Entry.file "partial.bin"] : List Entry) ≠ [] := by
  exact ⟨rfl, fun h => List.noConfusion h⟩

/-- C1 (amended): in the orchestration loop, when a strategy reports
success but the validator rejects its output, the run continues exactly as
from an empty target directory (the directory is wiped and recreated
before the next strategy); when a strategy reports failure, the run
continues from the directory exactly as that strategy's invocation left
it, with no cleanup. -/
theorem C1_cleanup_exactly_on_rejection (s : List Entry → Bool × List Entry)
    (rest : List (List Entry → Bool × List Entry)) (d : List Entry) :
    ((s d).1 = true → validate_extraction (some (s d).2) = false →
      runChain (s :: rest) d = ((runChain rest []).1, d :: (runChain rest []).2)) ∧
    ((s d).1 = false →
      runChain (s :: rest) d =
        ((runChain rest (s d).2).1, d :: (runChain rest (s d).2).2)) := by
  constructor
  · intro h1 h2
    simp [runChain, h1, h2]
  · intro h1
    simp [runChain, h1]

theorem C1_witness :
    runChain [extract_with_7zip true ⟨RunOutcome.exited 0, dissectedDir⟩,
        extract_universal ⟨[], true⟩] [] =
      ((runChain [extract_universal ⟨[], true⟩] []).1,
        [] :: (runChain [extract_universal ⟨[], true⟩] []).2) :=
  (C1_cleanup_exactly_on_rejection
    (extract_with_7zip true ⟨RunOutcome.exited 0, dissectedDir⟩)
    [extract_universal ⟨[], true⟩] []).1 (by decide) (by decide)

/-- C4 counterexample: a file named setup.bin whose content carries the
Inno Setup signature is classified by the filename rule, so the family is
"Generic Installer" rather than the matched framework's name — the
"regardless of the file's name" part of the claim is false. -/
theorem C4_counterexample :
    detect_installer_type "setup.bin" (some ⟨strBytes "xxInno Setupxx", 100⟩) =
      (true, "Generic Installer") ∧
    sigFamily ((strBytes "xxInno Setupxx").take 8192) = some "Inno Setup" ∧
    ("Generic Installer" : String) ≠ "Inno Setup" := by decide

/-- C4 (amended): for a file whose lowercased basename contains none of
the installer filename patterns, a framework signature in the first 8192
bytes yields isInstaller = true with installerFamily the first matched
framework's name. -/
theorem C4_signature_detection (name : String) (file : DiskFile) (fam : String)
    (h1 : hasInstallerPattern (toLowerStr name) = false)
    (h2 : sigFamily (file.bytes.take 8192) = some fam) :
    detect_installer_type name (some file) = (true, fam) := by
  simp [detect_installer_type, h1, h2]

theorem C4_witness :
    detect_installer_type "app.bin" (some ⟨strBytes "xNSISx", 10⟩) = (true, "NSIS") :=
  C4_signature_detection "app.bin" ⟨strBytes "xNSISx", 10⟩ "NSIS" (by decide) (by decide)

/-- C5: installer classification applies its rules first-match-wins in the
source's order — filename pattern, then content signature, then the
50 MiB size threshold, then standalone — and a 60 MiB photo_tool.exe with
no recognizable signature classifies as a Large Executable. -/
theorem C5_classification_order :
    detect_installer_type "photo_tool.exe"
        (some ⟨strBytes "plain image processing payload", 60 * 1024 * 1024⟩) =
      (true, "Large Executable (Likely Installer)") ∧
    (∀ (name : String) (f : Option DiskFile),
      hasInstallerPattern (toLowerStr name) = true →
      detect_installer_type name f = (true, "Generic Installer")) ∧
    (∀ (name : String) (file : DiskFile) (fam : String),
      hasInstallerPattern (toLowerStr name) = false →
      sigFamily (file.bytes.take 8192) = some fam →
      detect_installer_type name (some file) = (true, fam)) ∧
    (∀ (name : String) (file : DiskFile),
      hasInstallerPattern (toLowerStr name) = false →
      sigFamily (file.bytes.take 8192) = none →
      50 * 1024 * 1024 < file.size →
      detect_installer_type name (some file) =
        (true, "Large Executable (Likely Installer)")) ∧
    (∀ (name : String) (file : DiskFile),
      hasInstallerPattern (toLowerStr name) = false →
      sigFamily (file.bytes.take 8192) = none →
      file.size ≤ 50 * 1024 * 1024 →
      detect_installer_type name (some file) = (false, "Standalone Application")) := by
  refine ⟨by decide, ?_, ?_, ?_, ?_⟩
  · intro name f h1
    simp [detect_installer_type, h1]
  · intro name file fam h1 h2
    simp [detect_installer_type, h1, h2]
  · intro name file h1 h2 h3
    simp [detect_installer_type, h1, h2, h3]
  · intro name file h1 h2 h3
    simp [detect_installer_type, h1, h2, Nat.not_lt.mpr h3]

theorem C5_witness : detect_installer_type "setup.bin" none = (true, "Generic Installer") :=
  C5_classification_order.2.1 "setup.bin" none (by decide)

/-- C9: a file whose first two bytes are not the 'MZ' magic (including a
file shorter than two bytes) yields the untouched default analysis with
isValidExecutableFormat = false; the embedding is total, so no exception
reaches the caller. -/
theorem C9_non_mz_rejected (data : List Nat) (h : data.take 2 ≠ [77, 90]) :
    analyze_pe_structure (some data) = defaultAnalysis ∧
    (analyze_pe_structure (some data)).is_valid_pe = false := by
  have h1 : analyze_pe_structure (some data) = defaultAnalysis := by
    unfold analyze_pe_structure analyzeBytes
    dsimp only [rd]
    split
    · rfl
    · rename_i hc
      exfalso
      apply h
      have hc2 := not_not.mp hc
      rwa [List.drop_zero, List.take_take, Nat.min_def] at hc2
  exact ⟨h1, by rw [h1]; rfl⟩

theorem C9_witness :
    analyze_pe_structure (some [0, 0]) = defaultAnalysis ∧
    (analyze_pe_structure (some [0, 0])).is_valid_pe = false :=
  C9_non_mz_rejected [0, 0] (by decide)

theorem afterCoff_is_valid_pe (a : PEAnalysis) (r : ByteReader) (s n : Nat) :
    (afterCoff a r s n).is_valid_pe = a.is_valid_pe := by
  unfold afterCoff
  dsimp only
  split
  · split
    · split <;> rfl
    · rfl
  · rfl

theorem analyzeBytes_default_or_valid (data : List Nat) :
    analyzeBytes data = defaultAnalysis ∨ (analyzeBytes data).is_valid_pe = true := by
  unfold analyzeBytes
  dsimp only
  split
  · exact Or.inl rfl
  · split
    · exact Or.inl rfl
    · split
      · exact Or.inl rfl
      · split
        · exact Or.inr rfl
        · split
          · exact Or.inr rfl
          · split
            · exact Or.inr rfl
            · exact Or.inr (by rw [afterCoff_is_valid_pe])

/-- C6 counterexample: a file that ends right after a valid 'PE\x00\x00'
signature makes the COFF-header unpack raise; the caught failure returns a
record with isValidExecutableFormat = true, not the all-defaults record the
claim requires for every parse failure. -/
theorem C6_counterexample :
    truncatedAfterSig.length = 68 ∧
    analyze_pe_structure (some truncatedAfterSig) =
      { defaultAnalysis with is_valid_pe := true } ∧
    ({ defaultAnalysis with is_valid_pe := true } : PEAnalysis) ≠ defaultAnalysis := by
  refine ⟨rfl, rfl, ?_⟩
  intro h
  exact Bool.noConfusion (congrArg PEAnalysis.is_valid_pe h)

/-- C6 (amended): analyze_pe_structure never raises (the embedding is
total), and whenever the result reports isValidExecutableFormat = false,
every other field is at its zero-value/unknown default; parse failures
after the modern-signature check instead return isValidExecutableFormat =
true with the fields gathered so far. -/
theorem C6_invalid_implies_default (f : Option (List Nat))
    (h : (analyze_pe_structure f).is_valid_pe = false) :
    analyze_pe_structure f = defaultAnalysis := by
  cases f with
  | none => rfl
  | some data =>
    rcases analyzeBytes_default_or_valid data with h2 | h2
    · exact h2
    · simp only [analyze_pe_structure] at h
      rw [h2] at h
      exact absurd h (by simp)

theorem C6_witness : analyze_pe_structure none = defaultAnalysis :=
  C6_invalid_implies_default none rfl

theorem unpack16_short (bs : List Nat) (h : bs.length < 2) : unpack16 bs = none := by
  cases bs with
  | nil => rfl
  | cons a t =>
    cases t with
    | nil => rfl
    | cons b t2 =>
      simp [List.length_cons] at h
      omega

/-- C7 counterexample: a PE file declaring a 68-byte optional header (all
68 bytes present) makes the source unpack the empty slice opt_header[68:70]
and raise, so parsing aborts before the section headers even though a
well-formed '.text' section header follows — the claim says the subsystem
merely stays unknown and parsing continues. -/
theorem C7_counterexample :
    analyze_pe_structure (some optSize68File) =
      { defaultAnalysis with is_valid_pe := true, architecture := "x64" } ∧
    ((optSize68File.drop 88).take 68).length = 68 ∧
    readSectionNames ⟨optSize68File, 156⟩ 1 = [".text"] := by decide

/-- C7 (amended): when the declared optional-header size is nonzero the
parser reads that many bytes; with at least 70 bytes read it decodes bytes
68-69 as a little-endian subsystem code (2 maps to GUI, 3 to Console) and
continues to the section headers; with exactly 68 or 69 bytes read the
unpack of bytes 68:70 raises and parsing aborts with the fields gathered so
far; with fewer than 68 bytes read the subsystem stays unknown and parsing
continues to the section headers. -/
theorem C7_optional_header_stage (a : PEAnalysis) (r : ByteReader) (size n : Nat)
    (hpos : 0 < size) :
    (70 ≤ ((rd r size).1).length →
      ∃ code, unpack16 (((rd r size).1.drop 68).take 2) = some code ∧
        afterCoff a r size n =
          { a with
              subsystem :=
                if code = 2 then "GUI" else if code = 3 then "Console" else a.subsystem,
              sections := readSectionNames (rd r size).2 n }) ∧
    (68 ≤ ((rd r size).1).length → ((rd r size).1).length < 70 →
      afterCoff a r size n = a) ∧
    (((rd r size).1).length < 68 →
      afterCoff a r size n = { a with sections := readSectionNames (rd r size).2 n }) := by
  refine ⟨?_, ?_, ?_⟩
  · intro h70
    have hlen : ((((rd r size).1).drop 68).take 2).length = 2 := by
      simp only [List.length_take, List.length_drop]
      omega
    obtain ⟨x, y, hxy⟩ := List.length_eq_two.mp hlen
    refine ⟨x + 256 * y, by rw [hxy]; rfl, ?_⟩
    unfold afterCoff
    rw [if_pos hpos]
    dsimp only
    rw [if_pos (by omega : 68 ≤ ((rd r size).1).length)]
    simp only [hxy]
    rfl
  · intro h68 h70
    unfold afterCoff
    rw [if_pos hpos]
    dsimp only
    rw [if_pos h68]
    rw [unpack16_short _ (by simp only [List.length_take, List.length_drop]; omega)]
  · intro hlt
    unfold afterCoff
    rw [if_pos hpos]
    dsimp only
    rw [if_neg (by omega : ¬(68 ≤ ((rd r size).1).length))]

theorem C7_witness :
    afterCoff defaultAnalysis ⟨[], 0⟩ 1 0 =
      { defaultAnalysis with sections := readSectionNames (rd ⟨[], 0⟩ 1).2 0 } :=
  (C7_optional_header_stage defaultAnalysis ⟨[], 0⟩ 1 0 (by decide)).2.2 (by decide)

end PortableXE
